import Mathlib

/-!
Verification of the platypus reactive rerun / delta-diffing engine.

The definitions below are a shallow embedding of the Rust sources:
  - `platypus-core/src/widget.rs`      (WidgetValue and its accessors, SimpleWidget)
  - `platypus-core/src/element.rs`     (ElementId, ElementType)
  - `platypus-core/src/state.rs`       (Delta, DeltaGenerator)
  - `platypus-runtime/src/context.rs`  (St builder API)
  - `platypus-server/src/executor.rs`  (ScriptExecutor)
  - `platypus-core/src/elements/display.rs` (HeadingElement)
  - `platypus-core/src/elements/additional_widgets.rs` (RadioElement, MultiselectElement)

Modelling conventions:
  - `u64` ids are natural numbers; the increment in `next_element_id` is taken
    modulo `2 ^ 64`, matching wrapping semantics, and theorems that need
    freshness carry the corresponding bound.
  - Rust `f64` payloads are modelled by `F64`: exact rationals plus signed
    infinities and NaN.  Rounding to binary64 is not modelled; no claim below
    depends on the rounded value of a number, only on which variant is stored
    and on exactly representable small integers.
  - `DashMap` / `HashMap` are modelled as association lists with
    insert-replace semantics; every map in the code has at most one entry per
    key, and no claim depends on iteration order.
  - Rust `&mut self` methods become state-passing functions returning the
    updated state.
-/

/-- Model of Rust `f64` values: exact rationals plus infinities and NaN. -/
inductive F64 where
  | finite (q : Rat)
  | inf (neg : Bool)
  | nan
deriving DecidableEq, Repr

instance (n : Nat) : OfNat F64 n := ⟨F64.finite (n : Rat)⟩

/-- Model of `serde_json::Value` payloads (opaque to every claim). -/
inductive JsonVal where
  | null
  | jbool (b : Bool)
  | jnum (q : Rat)
  | jstr (s : String)
  | jarr (xs : List JsonVal)
  | jobj (fields : List (String × JsonVal))

/-- `WidgetValue` from `platypus-core/src/widget.rs`. -/
inductive WidgetValue where
  | string (s : String)
  | number (n : F64)
  | bool (b : Bool)
  | stringArray (xs : List String)
  | numberArray (xs : List F64)
  | json (v : JsonVal)

/-- `WidgetValue::as_string`: returns the string only for the `String` variant. -/
def WidgetValue.as_string : WidgetValue → Option String
  | .string s => some s
  | _ => none

/-- `WidgetValue::as_number`: returns the number only for the `Number` variant. -/
def WidgetValue.as_number : WidgetValue → Option F64
  | .number n => some n
  | _ => none

/-- `WidgetValue::as_bool`: returns the boolean only for the `Bool` variant. -/
def WidgetValue.as_bool : WidgetValue → Option Bool
  | .bool b => some b
  | _ => none

/-- `WidgetValue::as_string_array`. -/
def WidgetValue.as_string_array : WidgetValue → Option (List String)
  | .stringArray xs => some xs
  | _ => none

/-- `WidgetValue::as_number_array`. -/
def WidgetValue.as_number_array : WidgetValue → Option (List F64)
  | .numberArray xs => some xs
  | _ => none

/-- `ElementType` from `platypus-core/src/element.rs` (element ids are `Nat`). -/
inductive ElementType where
  | text (value : String)
  | markdown (value : String)
  | code (value : String) (language : Option String)
  | heading (value : String) (level : Nat)
  | button (label : String) (key : Option String)
  | textInput (label : String) (value : String) (key : Option String)
  | textArea (label : String) (value : String) (key : Option String)
  | numberInput (label : String) (value : F64) (key : Option String)
  | slider (label : String) (value : F64) (min : F64) (max : F64) (key : Option String)
  | checkbox (label : String) (value : Bool) (key : Option String)
  | radio (label : String) (options : List String) (value : Option String) (key : Option String)
  | selectbox (label : String) (options : List String) (value : Option String) (key : Option String)
  | multiselect (label : String) (options : List String) (values : List String) (key : Option String)
  | dateInput (label : String) (value : String) (key : Option String)
  | timeInput (label : String) (value : String) (key : Option String)
  | colorPicker (label : String) (value : String) (key : Option String)
  | fileUploader (label : String) (key : Option String)
  | json (value : JsonVal)
  | dataframe (data : String)
  | table (headers : List String) (rows : List (List String))
  | cameraInput (label : String) (key : Option String)
  | container (children : List Nat)
  | column (children : List Nat) (width : Option F64)
  | row (children : List Nat)
  | tab (label : String) (children : List Nat)
  | expander (label : String) (expanded : Bool) (children : List Nat)
  | image (src : String) (caption : Option String) (width : Option Nat)
  | audio (src : String)
  | video (src : String)
  | success (message : String)
  | error (message : String)
  | warning (message : String)
  | info (message : String)
  | progress (value : F64)
  | tabs (tabs : List (String × List Nat))
  | sidebar (children : List Nat)
  | metric (label : String) (value : String) (delta : Option String)
  | lineChart (data : String) (title : Option String)
  | barChart (data : String) (title : Option String)
  | areaChart (data : String) (title : Option String)
  | scatterChart (data : String) (title : Option String)
  | pieChart (data : String) (title : Option String)
  | plotlyChart (spec : String)
  | vegaLiteChart (spec : String)
  | bokehChart (spec : String)
  | empty
  | divider

/-- `Delta` from `platypus-core/src/state.rs`. -/
inductive Delta where
  | addElement (id : Nat) (element : ElementType) (parent_id : Option Nat)
  | updateElement (id : Nat) (element : ElementType)
  | removeElement (id : Nat)
  | clearContainer (id : Nat)

/-- `SimpleWidget` from `platypus-core/src/widget.rs`. -/
structure SimpleWidget where
  key : String
  value : WidgetValue
  changed : Bool

/-- The `u64` modulus used by the id counter. -/
def u64Size : Nat := 2 ^ 64

/-- State of a `DeltaGenerator` (`platypus-core/src/state.rs`): elements map,
widgets map, delta log and the id counter.  The two `DashMap`s are association
lists with insert-replace semantics. -/
structure DeltaGenState where
  elements : List (Nat × ElementType)
  widgets : List SimpleWidget
  deltas : List Delta
  next_id : Nat

/-- `DeltaGenerator::new`: empty maps, empty log, counter at 1. -/
def DeltaGenState.new : DeltaGenState :=
  { elements := [], widgets := [], deltas := [], next_id := 1 }

/-- `DeltaGenerator::next_element_id`: returns the current counter and bumps it
(wrapping at `2 ^ 64` as the stored `u64` does). -/
def DeltaGenState.next_element_id (g : DeltaGenState) : Nat × DeltaGenState :=
  let current := g.next_id
  (current, { g with next_id := (current + 1) % u64Size })

/-- `DeltaGenerator::add_element`: allocate an id, insert the element, append an
`AddElement` delta, return the id. -/
def DeltaGenState.add_element (g : DeltaGenState) (element_type : ElementType)
    (parent_id : Option Nat) : Nat × DeltaGenState :=
  let (id, g) := g.next_element_id
  (id, { g with
          elements := (id, element_type) :: g.elements.filter (fun e => e.1 != id),
          deltas := g.deltas ++ [Delta.addElement id element_type parent_id] })

/-- `DeltaGenerator::update_element`. -/
def DeltaGenState.update_element (g : DeltaGenState) (id : Nat)
    (element_type : ElementType) : DeltaGenState :=
  { g with deltas := g.deltas ++ [Delta.updateElement id element_type] }

/-- `DeltaGenerator::remove_element`. -/
def DeltaGenState.remove_element (g : DeltaGenState) (id : Nat) : DeltaGenState :=
  { g with elements := g.elements.filter (fun e => e.1 != id),
           deltas := g.deltas ++ [Delta.removeElement id] }

/-- `DeltaGenerator::clear_container`. -/
def DeltaGenState.clear_container (g : DeltaGenState) (id : Nat) : DeltaGenState :=
  { g with deltas := g.deltas ++ [Delta.clearContainer id] }

/-- `DeltaGenerator::take_deltas`: hand out the log and clear it. -/
def DeltaGenState.take_deltas (g : DeltaGenState) : List Delta × DeltaGenState :=
  (g.deltas, { g with deltas := [] })

/-- `DeltaGenerator::set_widget`: build a `SimpleWidget`, mark it changed,
insert it (replacing any previous entry for the key). -/
def DeltaGenState.set_widget (g : DeltaGenState) (key : String)
    (value : WidgetValue) : DeltaGenState :=
  let widget : SimpleWidget := { key := key, value := value, changed := true }
  { g with widgets := widget :: g.widgets.filter (fun w => w.key != key) }

/-- `DeltaGenerator::get_widget`: look the key up and return its value. -/
def DeltaGenState.get_widget (g : DeltaGenState) (key : String) : Option WidgetValue :=
  (g.widgets.find? (fun w => w.key == key)).map (fun w => w.value)

/-- The `St` run context (`platypus-runtime/src/context.rs`). -/
structure St where
  delta_gen : DeltaGenState
  current_container : Option Nat

/-- `St::new`. -/
def St.new : St := { delta_gen := DeltaGenState.new, current_container := none }

/-- `St::with_delta_gen`. -/
def St.with_delta_gen (g : DeltaGenState) : St :=
  { delta_gen := g, current_container := none }

/-- `St::write`: record a `Text` element in the current container. -/
def St.write (st : St) (text : String) : Nat × St :=
  let (id, g) := st.delta_gen.add_element (ElementType.text text) st.current_container
  (id, { st with delta_gen := g })

/-- `St::markdown`. -/
def St.markdown (st : St) (text : String) : Nat × St :=
  let (id, g) := st.delta_gen.add_element (ElementType.markdown text) st.current_container
  (id, { st with delta_gen := g })

/-- `St::heading`: records the heading element for the given level and returns
its id; the builder performs no level validation. -/
def St.heading (st : St) (text : String) (level : Nat) : Nat × St :=
  let (id, g) := st.delta_gen.add_element (ElementType.heading text level) st.current_container
  (id, { st with delta_gen := g })

/-- `St::title`: level-1 heading. -/
def St.title (st : St) (text : String) : Nat × St := st.heading text 1

/-- `St::button`: record the element; with a key, read the stored value through
`as_bool` (defaulting to `false` twice); with no key, return `false`. -/
def St.button (st : St) (label : String) (key : Option String) : Bool × St :=
  let (_, g) := st.delta_gen.add_element (ElementType.button label key) st.current_container
  let st := { st with delta_gen := g }
  match key with
  | some k => (((g.get_widget k).map (fun v => v.as_bool.getD false)).getD false, st)
  | none => (false, st)

/-- `St::slider`: resolve the key (explicit or derived from the label), record
the element, then return the stored number if present, else the supplied
default. -/
def St.slider (st : St) (label : String) (min max value : F64)
    (key : Option String) : F64 × St :=
  let key_str := key.getD ("slider_" ++ label)
  let (_, g) := st.delta_gen.add_element
    (ElementType.slider label value min max key) st.current_container
  (((g.get_widget key_str).bind WidgetValue.as_number).getD value,
   { st with delta_gen := g })

/-- `St::checkbox`: analogous to `slider` with `as_bool`. -/
def St.checkbox (st : St) (label : String) (value : Bool)
    (key : Option String) : Bool × St :=
  let key_str := key.getD ("checkbox_" ++ label)
  let (_, g) := st.delta_gen.add_element
    (ElementType.checkbox label value key) st.current_container
  (((g.get_widget key_str).bind WidgetValue.as_bool).getD value,
   { st with delta_gen := g })

/-- `St::selectbox`: the displayed default is `options[index]` or the empty
string when the index is out of range (including an empty option list); the
element is recorded unconditionally. -/
def St.selectbox (st : St) (label : String) (options : List String)
    (index : Nat) (key : Option String) : String × St :=
  let default := (options.get? index).getD ""
  let key_str := key.getD ("selectbox_" ++ label)
  let (_, g) := st.delta_gen.add_element
    (ElementType.selectbox label options (some default) key) st.current_container
  (((g.get_widget key_str).bind WidgetValue.as_string).getD default,
   { st with delta_gen := g })

/-- `Error` from `platypus-core/src/error.rs` (the variants reachable here). -/
inductive CoreError where
  | sessionNotFound (msg : String)
  | widgetNotFound (msg : String)
  | invalidWidgetValue (msg : String)
  | scriptExecutionError (msg : String)
  | stateError (msg : String)
  | internal (msg : String)
deriving DecidableEq, Repr

/-- `ElementMetadata` from `platypus-core/src/elements/mod.rs`. -/
structure ElementMetadata where
  css_classes : List String
  inline_styles : List (String × String)
  aria_label : Option String
  aria_role : Option String
  data_attributes : List (String × String)

/-- `ElementMetadata::default`. -/
def ElementMetadata.default : ElementMetadata :=
  { css_classes := [], inline_styles := [], aria_label := none,
    aria_role := none, data_attributes := [] }

/-- `BaseElement` from `platypus-core/src/elements/mod.rs`. -/
structure BaseElement where
  id : Nat
  name : String
  metadata : ElementMetadata

/-- `BaseElement::new`. -/
def BaseElement.new (id : Nat) (name : String) : BaseElement :=
  { id := id, name := name, metadata := ElementMetadata.default }

/-- `HeadingElement` from `platypus-core/src/elements/display.rs`. -/
structure HeadingElement where
  base : BaseElement
  content : String
  level : Nat

/-- `HeadingElement::new`: rejects any level outside 1..=6. -/
def HeadingElement.new (id : Nat) (content : String) (level : Nat) :
    Except CoreError HeadingElement :=
  if level < 1 || level > 6 then
    Except.error (CoreError.stateError "Heading level must be between 1 and 6")
  else
    Except.ok { base := BaseElement.new id ("heading_" ++ toString level),
                content := content, level := level }

/-- `RadioElement` from `platypus-core/src/elements/additional_widgets.rs`. -/
structure RadioElement where
  base : BaseElement
  label : String
  options : List String
  selected_index : Nat
  disabled : Bool

/-- `RadioElement::new`: rejects an empty option list. -/
def RadioElement.new (id : Nat) (label : String) (options : List String) :
    Except CoreError RadioElement :=
  if options.isEmpty then
    Except.error (CoreError.stateError "Radio must have at least one option")
  else
    Except.ok { base := BaseElement.new id "radio", label := label,
                options := options, selected_index := 0, disabled := false }

/-- `RadioElement::set_selected_index`: rejects an index outside
`0..options.len()` instead of clamping it. -/
def RadioElement.set_selected_index (e : RadioElement) (index : Nat) :
    Except CoreError RadioElement :=
  if index ≥ e.options.length then
    Except.error (CoreError.stateError "Index out of bounds")
  else
    Except.ok { e with selected_index := index }

/-- `MultiselectElement` from
`platypus-core/src/elements/additional_widgets.rs`. -/
structure MultiselectElement where
  base : BaseElement
  label : String
  options : List String
  selected_indices : List Nat
  disabled : Bool

/-- `MultiselectElement::new`: rejects an empty option list. -/
def MultiselectElement.new (id : Nat) (label : String) (options : List String) :
    Except CoreError MultiselectElement :=
  if options.isEmpty then
    Except.error (CoreError.stateError "Multiselect must have at least one option")
  else
    Except.ok { base := BaseElement.new id "multiselect", label := label,
                options := options, selected_indices := [], disabled := false }

/-- `MultiselectElement::add_selection`: rejects an out-of-range index. -/
def MultiselectElement.add_selection (e : MultiselectElement) (index : Nat) :
    Except CoreError MultiselectElement :=
  if index ≥ e.options.length then
    Except.error (CoreError.stateError "Index out of bounds")
  else if e.selected_indices.contains index then
    Except.ok e
  else
    Except.ok { e with selected_indices := e.selected_indices ++ [index] }

/-- Leading sign of a numeric literal (`+`, `-`, or none); returns whether the
value is negated and the remaining characters. -/
def stripSign : List Char → Bool × List Char
  | '+' :: rest => (false, rest)
  | '-' :: rest => (true, rest)
  | cs => (false, cs)

/-- ASCII digit test. -/
def isAsciiDigit (c : Char) : Bool := '0' ≤ c && c ≤ '9'

/-- Numeric value of a digit string. -/
def digitsVal (ds : List Char) : Nat :=
  ds.foldl (fun acc c => acc * 10 + (c.toNat - '0'.toNat)) 0

/-- Optional exponent suffix of Rust's float grammar: either nothing remains,
or `e`/`E`, an optional sign and a nonempty digit string consume the rest. -/
def parseExpPart (mantissa : Rat) : List Char → Option Rat
  | [] => some mantissa
  | c :: rest =>
    if c = 'e' ∨ c = 'E' then
      let (negExp, rest) := stripSign rest
      let (ds, rest) := rest.span isAsciiDigit
      if ds.isEmpty ∨ ¬ rest.isEmpty then none
      else if negExp then some (mantissa / (10 ^ digitsVal ds))
      else some (mantissa * (10 ^ digitsVal ds))
    else none

/-- Unsigned part of Rust's `f64` decimal grammar:
`Count '.'? | Count? '.' Count`, optionally followed by an exponent.  The
value is the exact rational the digits denote (binary64 rounding is not
modelled). -/
def parseDecimal (cs : List Char) : Option Rat :=
  let (intDigits, rest) := cs.span isAsciiDigit
  match rest with
  | [] => if intDigits.isEmpty then none else some (digitsVal intDigits)
  | '.' :: rest2 =>
    let (fracDigits, rest3) := rest2.span isAsciiDigit
    if intDigits.isEmpty ∧ fracDigits.isEmpty then none
    else parseExpPart
      ((digitsVal intDigits : Rat) + (digitsVal fracDigits : Rat) / (10 ^ fracDigits.length))
      rest3
  | _ =>
    if intDigits.isEmpty then none else parseExpPart (digitsVal intDigits) rest

/-- Rust `<f64 as FromStr>::from_str`: optional sign, then case-insensitive
`inf` / `infinity` / `nan` or a decimal number per `parseDecimal`. -/
def rust_f64_from_str (s : String) : Option F64 :=
  let (neg, body) := stripSign s.toList
  let lower := body.map Char.toLower
  if lower = "inf".toList ∨ lower = "infinity".toList then some (F64.inf neg)
  else if lower = "nan".toList then some F64.nan
  else (parseDecimal body).map (fun q => F64.finite (if neg then -q else q))

/-- The coercion in `ScriptExecutor::execute_script` (executor.rs lines
50-57): try a numeric parse first and store `Number`; fall back to `String`
if the parse fails. -/
def coerce_raw (value : String) : WidgetValue :=
  match rust_f64_from_str value with
  | some num => WidgetValue.number num
  | none => WidgetValue.string value

/-- Seeding loop of `ScriptExecutor::execute_script`: coerce every stored raw
value into the fresh `DeltaGenerator`. -/
def seed_widgets (widget_state : List (String × String)) (g : DeltaGenState) :
    DeltaGenState :=
  widget_state.foldl (fun g kv => g.set_widget kv.1 (coerce_raw kv.2)) g

/-- `AppFn` from `platypus-server/src/executor.rs`: the script callback,
`fn(&mut St) -> Result<(), String>` — it both updates the run context and
reports success or an application-level failure. -/
def AppFn : Type := St → St × Except String Unit

/-- `ScriptExecutor::execute_script`: build a fresh `DeltaGenerator`, seed it
from the stored widget state, run the app and, only on success, take the
deltas; an app failure is propagated immediately (the `?` operator), and the
deltas recorded in the run context up to that point never reach the caller. -/
def execute_script (widget_state : List (String × String)) (app : AppFn) :
    Except String (List Delta) :=
  let delta_gen := seed_widgets widget_state DeltaGenState.new
  let st := St.with_delta_gen delta_gen
  match app st with
  | (_, Except.error e) => Except.error e
  | (st, Except.ok _) => Except.ok st.delta_gen.take_deltas.1

/-- `HashMap::insert` on the executor's raw widget state. -/
def hashmap_insert (key value : String) (state : List (String × String)) :
    List (String × String) :=
  (key, value) :: state.filter (fun kv => kv.1 != key)

/-- `ScriptExecutor::handle_widget_change`: store the raw value, then rerun
the script; returns the result together with the (permanently) updated raw
widget state. -/
def handle_widget_change (widget_state : List (String × String))
    (key value : String) (app : AppFn) :
    Except String (List Delta) × List (String × String) :=
  let widget_state := hashmap_insert key value widget_state
  (execute_script widget_state app, widget_state)

/-- A sequence of element declarations, as issued by the display builder
methods during one run: each entry is the element payload together with the
parent container passed to `DeltaGenerator::add_element`. -/
def run_decls (ds : List (ElementType × Option Nat)) (g : DeltaGenState) :
    DeltaGenState :=
  ds.foldl (fun g d => (g.add_element d.1 d.2).2) g

/-- The delta log a run of `run_decls` is expected to produce: one
`AddElement` per declaration, in declaration order, with consecutive ids. -/
def expected_adds : Nat → List (ElementType × Option Nat) → List Delta
  | _, [] => []
  | n, d :: rest => Delta.addElement n d.1 d.2 :: expected_adds (n + 1) rest

/-- The ids returned by `n` successive `next_element_id` calls. -/
def alloc_ids : Nat → DeltaGenState → List Nat
  | 0, _ => []
  | n + 1, g =>
    let (id, g') := g.next_element_id
    id :: alloc_ids n g'

/-- A concrete script callback: one keyed button whose returned value is made
visible by recording a text element that depends on it. -/
def button_probe_app : AppFn := fun st =>
  let (clicked, st) := st.button "B" (some "k")
  let (_, st) := st.write (if clicked then "clicked" else "not clicked")
  (st, Except.ok ())

/-- A concrete script callback that records one element and then reports an
application-level failure. -/
def failing_app : AppFn := fun st =>
  let (_, st) := st.write "recorded before failure"
  (st, Except.error "boom")

/-- `find?` for key `k` is unaffected by filtering out entries of a different
key `k'` (the replace step of the widget-map insert). -/
theorem find?_filter_ne (k k' : String) (h : k' ≠ k) (l : List SimpleWidget) :
    (l.filter (fun w => w.key != k')).find? (fun w => w.key == k)
      = l.find? (fun w => w.key == k) := by
  induction l with
  | nil => rfl
  | cons a l ih =>
    by_cases ha : a.key = k'
    · have h1 : (a.key != k') = false := by simp [ha]
      have h2 : (a.key == k) = false := by
        rw [ha]
        exact beq_eq_false_iff_ne.mpr h
      simp [List.filter_cons, h1, List.find?_cons, h2, ih]
    · have h1 : (a.key != k') = true := by simp [ha]
      by_cases hk : a.key = k
      · have h3 : ¬ k = k' := fun he => h he.symm
        simp [List.filter_cons, h1, List.find?_cons, hk, h3]
      · have h2 : (a.key == k) = false := beq_eq_false_iff_ne.mpr hk
        simp [List.filter_cons, h1, List.find?_cons, h2, ih]

/-- Reading back the key just written returns the written value. -/
theorem get_widget_set_same (g : DeltaGenState) (k : String) (v : WidgetValue) :
    (g.set_widget k v).get_widget k = some v := by
  simp [DeltaGenState.set_widget, DeltaGenState.get_widget, List.find?_cons]

/-- Writing a different key does not change what is read under `k`. -/
theorem get_widget_set_other (g : DeltaGenState) (k k' : String)
    (v : WidgetValue) (h : k' ≠ k) :
    (g.set_widget k' v).get_widget k = g.get_widget k := by
  have h2 : (({ key := k', value := v, changed := true } : SimpleWidget).key == k) = false :=
    beq_eq_false_iff_ne.mpr h
  simp [DeltaGenState.set_widget, DeltaGenState.get_widget, List.find?_cons, h2,
        find?_filter_ne k k' h]

/-- Seeding entries whose keys all differ from `k` leaves the value under `k`
unchanged. -/
theorem seed_widgets_get_of_not_mem (k : String) :
    ∀ (es : List (String × String)) (g : DeltaGenState), (∀ e ∈ es, e.1 ≠ k) →
      (seed_widgets es g).get_widget k = g.get_widget k := by
  intro es
  induction es with
  | nil => intro g _; rfl
  | cons a es ih =>
    intro g h
    have ha : a.1 ≠ k := h a (List.mem_cons_self a es)
    have hstep : seed_widgets (a :: es) g
        = seed_widgets es (g.set_widget a.1 (coerce_raw a.2)) := rfl
    rw [hstep, ih _ (fun e he => h e (List.mem_cons_of_mem a he)),
        get_widget_set_other _ _ _ _ ha]

/-- After `handle_widget_change` stores a raw value under `k`, the next run's
seeded widget store maps `k` to the numeric-first coercion of that raw text. -/
theorem get_widget_seed_insert (ws : List (String × String)) (k v : String)
    (g : DeltaGenState) :
    (seed_widgets (hashmap_insert k v ws) g).get_widget k
      = some (coerce_raw v) := by
  have hmem : ∀ e ∈ ws.filter (fun kv => kv.1 != k), e.1 ≠ k := by
    intro e he
    have hf := (List.mem_filter.mp he).2
    simpa using hf
  have hstep : seed_widgets (hashmap_insert k v ws) g
      = seed_widgets (ws.filter (fun kv => kv.1 != k))
          (g.set_widget k (coerce_raw v)) := rfl
  rw [hstep, seed_widgets_get_of_not_mem k _ _ hmem, get_widget_set_same]

/-- `add_element` never touches the widget store. -/
theorem add_element_get_widget (g : DeltaGenState) (et : ElementType)
    (p : Option Nat) (k : String) :
    ((g.add_element et p).2).get_widget k = g.get_widget k := rfl

/-- Seeding widgets leaves the delta log untouched. -/
theorem seed_widgets_deltas :
    ∀ (es : List (String × String)) (g : DeltaGenState),
      (seed_widgets es g).deltas = g.deltas := by
  intro es
  induction es with
  | nil => intro g; rfl
  | cons a es ih => intro g; exact ih _

/-- Seeding widgets leaves the id counter untouched. -/
theorem seed_widgets_next_id :
    ∀ (es : List (String × String)) (g : DeltaGenState),
      (seed_widgets es g).next_id = g.next_id := by
  intro es
  induction es with
  | nil => intro g; rfl
  | cons a es ih => intro g; exact ih _

/-- A run of declarations appends exactly one `AddElement` per declaration,
in declaration order, with ids counting up from the current counter (as long
as the counter does not exhaust the `u64` range). -/
theorem run_decls_deltas :
    ∀ (ds : List (ElementType × Option Nat)) (g : DeltaGenState),
      g.next_id + ds.length ≤ u64Size →
      (run_decls ds g).deltas = g.deltas ++ expected_adds g.next_id ds := by
  intro ds
  induction ds with
  | nil => intro g _; simp [run_decls, expected_adds]
  | cons d rest ih =>
    intro g h
    have hstep : run_decls (d :: rest) g
        = run_decls rest ((g.add_element d.1 d.2).2) := rfl
    have hd' : ((g.add_element d.1 d.2).2).deltas
        = g.deltas ++ [Delta.addElement g.next_id d.1 d.2] := rfl
    have hg' : ((g.add_element d.1 d.2).2).next_id
        = (g.next_id + 1) % u64Size := rfl
    cases rest with
    | nil =>
      rw [hstep]
      show ((g.add_element d.1 d.2).2).deltas = _
      rw [hd']
      simp [expected_adds]
    | cons r rs =>
      have hlen : (d :: r :: rs).length = rs.length + 2 := by simp
      have hlt : g.next_id + 1 < u64Size := by
        rw [hlen] at h; omega
      have hmod : (g.next_id + 1) % u64Size = g.next_id + 1 :=
        Nat.mod_eq_of_lt hlt
      have hbound : ((g.add_element d.1 d.2).2).next_id + (r :: rs).length ≤ u64Size := by
        rw [hg', hmod]
        rw [hlen] at h
        simp only [List.length_cons]
        omega
      rw [hstep, ih _ hbound, hd', hg', hmod]
      simp [expected_adds]

/-- `n` successive id allocations return exactly the counter values
`next_id, next_id + 1, ...` while the counter stays within `u64`. -/
theorem alloc_ids_eq :
    ∀ (n : Nat) (g : DeltaGenState), g.next_id + n ≤ u64Size →
      alloc_ids n g = List.range' g.next_id n := by
  intro n
  induction n with
  | zero => intro g _; rfl
  | succ m ih =>
    intro g h
    have hstep : alloc_ids (m + 1) g
        = g.next_id :: alloc_ids m { g with next_id := (g.next_id + 1) % u64Size } := rfl
    cases m with
    | zero =>
      rw [hstep]
      rfl
    | succ m' =>
      have hlt : g.next_id + 1 < u64Size := by omega
      have hmod : (g.next_id + 1) % u64Size = g.next_id + 1 :=
        Nat.mod_eq_of_lt hlt
      have hbound : ({ g with next_id := (g.next_id + 1) % u64Size } : DeltaGenState).next_id
          + (m' + 1) ≤ u64Size := by
        show (g.next_id + 1) % u64Size + (m' + 1) ≤ u64Size
        rw [hmod]; omega
      rw [hstep, ih _ hbound]
      show g.next_id :: List.range' ((g.next_id + 1) % u64Size) (m' + 1)
          = List.range' g.next_id (m' + 1 + 1)
      rw [hmod]
      exact (List.range'_succ g.next_id (m' + 1) 1).symm

/-- The value a keyed slider returns is the stored number under its key, or
the script default. -/
theorem slider_returns_keyed (st : St) (label : String) (mn mx v : F64)
    (k : String) :
    (st.slider label mn mx v (some k)).1
      = ((st.delta_gen.get_widget k).bind WidgetValue.as_number).getD v := by
  show ((((st.delta_gen.add_element (ElementType.slider label v mn mx (some k))
      st.current_container).2).get_widget k).bind WidgetValue.as_number).getD v = _
  rw [add_element_get_widget]

/-- The value a keyed checkbox returns is the stored boolean under its key, or
the script default. -/
theorem checkbox_returns_keyed (st : St) (label : String) (v : Bool)
    (k : String) :
    (st.checkbox label v (some k)).1
      = ((st.delta_gen.get_widget k).bind WidgetValue.as_bool).getD v := by
  show ((((st.delta_gen.add_element (ElementType.checkbox label v (some k))
      st.current_container).2).get_widget k).bind WidgetValue.as_bool).getD v = _
  rw [add_element_get_widget]

/-- The value a keyed button returns is the stored value under its key read
through `as_bool` with a double `false` fallback. -/
theorem button_returns_keyed (st : St) (label : String) (k : String) :
    (st.button label (some k)).1
      = ((st.delta_gen.get_widget k).map (fun v => v.as_bool.getD false)).getD false := by
  show ((((st.delta_gen.add_element (ElementType.button label (some k))
      st.current_container).2).get_widget k).map (fun v => v.as_bool.getD false)).getD false = _
  rw [add_element_get_widget]

/-- C1: Value carry-forward.  For every key `k` and session widget state: if
no value is stored under `k`, `slider("S", 0, 100, 50, key=k)` returns `50`
(the script-supplied default); if `WidgetValue::Number(75)` is stored under
`k`, the same call returns `75` (the stored value replaces the default). -/
theorem c1_value_carry_forward :
    (∀ (st : St) (k : String), st.delta_gen.get_widget k = none →
        (st.slider "S" 0 100 50 (some k)).1 = 50) ∧
    (∀ (st : St) (k : String),
        st.delta_gen.get_widget k = some (WidgetValue.number 75) →
        (st.slider "S" 0 100 50 (some k)).1 = 75) := by
  constructor
  · intro st k h
    rw [slider_returns_keyed, h]
    rfl
  · intro st k h
    rw [slider_returns_keyed, h]
    rfl

/-- Witness for C1: evaluated on a fresh session and on a session in which
`Number 75` was stored under the key via `set_widget`. -/
theorem c1_value_carry_forward_witness :
    (St.new.slider "S" 0 100 50 (some "k")).1 = 50 ∧
    ((St.with_delta_gen (DeltaGenState.new.set_widget "k"
        (WidgetValue.number 75))).slider "S" 0 100 50 (some "k")).1 = 75 :=
  ⟨c1_value_carry_forward.1 St.new "k" rfl,
   c1_value_carry_forward.2 (St.with_delta_gen (DeltaGenState.new.set_widget "k"
      (WidgetValue.number 75))) "k" rfl⟩

/-- C2: Delta ordering and replay determinism.  Within one run the delta log
is exactly one `AddElement` per declaration, in declaration order, with ids
counting up from 1; and any two executions of the same declaration sequence,
each from a fresh run context seeded with some widget state, produce
identical delta sequences. -/
theorem c2_delta_order_determinism
    (ds : List (ElementType × Option Nat)) (w : List (String × String))
    (h : ds.length ≤ u64Size - 1) :
    (run_decls ds (seed_widgets w DeltaGenState.new)).deltas = expected_adds 1 ds ∧
    (∀ w2 : List (String × String),
        (run_decls ds (seed_widgets w2 DeltaGenState.new)).deltas
          = (run_decls ds (seed_widgets w DeltaGenState.new)).deltas) := by
  have hpos : 0 < u64Size := by unfold u64Size; positivity
  have key : ∀ wx : List (String × String),
      (run_decls ds (seed_widgets wx DeltaGenState.new)).deltas
        = expected_adds 1 ds := by
    intro wx
    have h1 : (seed_widgets wx DeltaGenState.new).next_id = 1 :=
      seed_widgets_next_id wx _
    have h2 : (seed_widgets wx DeltaGenState.new).deltas = [] :=
      seed_widgets_deltas wx _
    have hb : (seed_widgets wx DeltaGenState.new).next_id + ds.length ≤ u64Size := by
      rw [h1]; omega
    rw [run_decls_deltas ds _ hb, h1, h2]
    simp
  exact ⟨key w, fun w2 => by rw [key w2, key w]⟩

/-- Witness for C2: two concrete declarations from a fresh seeded context. -/
theorem c2_delta_order_determinism_witness :
    (run_decls [(ElementType.text "a", none), (ElementType.markdown "b", none)]
        (seed_widgets [] DeltaGenState.new)).deltas
      = expected_adds 1 [(ElementType.text "a", none), (ElementType.markdown "b", none)] :=
  (c2_delta_order_determinism
    [(ElementType.text "a", none), (ElementType.markdown "b", none)] []
    (by decide)).1

/-- C7: Monotonic identity.  Within one run context the allocated ids start
at 1 and are strictly increasing and pairwise distinct, for any number of
allocations that does not exhaust the `u64` counter. -/
theorem c7_monotonic_identity (n : Nat) (h : n ≤ u64Size - 1) :
    alloc_ids n DeltaGenState.new = List.range' 1 n ∧
    (alloc_ids n DeltaGenState.new).Pairwise (· < ·) ∧
    (alloc_ids n DeltaGenState.new).Nodup := by
  have hpos : 0 < u64Size := by unfold u64Size; positivity
  have hb : (DeltaGenState.new).next_id + n ≤ u64Size := by
    show 1 + n ≤ u64Size
    omega
  have he : alloc_ids n DeltaGenState.new = List.range' 1 n := by
    have := alloc_ids_eq n DeltaGenState.new hb
    simpa using this
  refine ⟨he, ?_, ?_⟩
  · rw [he]
    exact List.pairwise_lt_range' 1 n 1 (by omega)
  · rw [he]
    exact (List.pairwise_lt_range' 1 n 1 (by omega)).imp
      (fun hlt => Nat.ne_of_lt hlt)

/-- Witness for C7: four allocations from a fresh context yield 1, 2, 3, 4. -/
theorem c7_monotonic_identity_witness :
    alloc_ids 4 DeltaGenState.new = List.range' 1 4 :=
  (c7_monotonic_identity 4 (by unfold u64Size; omega)).1

/-- C10: Keyless buttons never read state.  For every label and every widget
store content, `button(label, None)` returns `false`, and the call leaves the
widget store untouched: no default key is derived and the store is never
consulted. -/
theorem c10_keyless_button_never_reads_state (st : St) (label : String) :
    (st.button label none).1 = false ∧
    (st.button label none).2.delta_gen.widgets = st.delta_gen.widgets :=
  ⟨rfl, rfl⟩

/-- C3 counterexample: the claim says the rerun immediately following a
stored click-true returns `true`.  A click arrives at the executor as the
raw text of a boolean, so after `handle_widget_change(k, "true")` the
immediately following rerun of a script probing the keyed button records
"not clicked": the button returned `false`, contradicting the claim. -/
theorem c3_button_pulse_counterexample :
    (handle_widget_change [] "k" "true" button_probe_app).1
      = Except.ok
          [Delta.addElement 1 (ElementType.button "B" (some "k")) none,
           Delta.addElement 2 (ElementType.text "not clicked") none] := by
  rfl

/-- C3 (amended): a keyed button returns `false` on a run with no stored
value; the orchestrator's numeric-or-string coercion never yields a value
whose `as_bool` is present, so a rerun driven by `handle_widget_change`
also returns `false`; and the stored raw value is kept, never consumed:
the state handed to later reruns is exactly the inserted store, which
seeds the same coerced value under the key on every subsequent rerun. -/
theorem c3_button_pulse_amended :
    (∀ (st : St) (label k : String), st.delta_gen.get_widget k = none →
        (st.button label (some k)).1 = false) ∧
    (∀ raw : String, (coerce_raw raw).as_bool = none) ∧
    (∀ (ws : List (String × String)) (k v : String) (app : AppFn),
        (handle_widget_change ws k v app).2 = hashmap_insert k v ws) ∧
    (∀ (ws : List (String × String)) (k v : String),
        (seed_widgets (hashmap_insert k v ws) DeltaGenState.new).get_widget k
          = some (coerce_raw v)) := by
  refine ⟨?_, ?_, fun ws k v app => rfl, fun ws k v => get_widget_seed_insert ws k v _⟩
  · intro st label k h
    rw [button_returns_keyed, h]
    rfl
  · intro raw
    unfold coerce_raw
    cases hp : rust_f64_from_str raw with
    | none => rfl
    | some num => rfl

/-- Witness for C3 (amended): the no-stored-click case on a fresh context. -/
theorem c3_button_pulse_amended_witness :
    (St.new.button "B" (some "k")).1 = false :=
  c3_button_pulse_amended.1 St.new "B" "k" rfl

/-- C4 counterexample: the callback records one element into the run context
and then fails; the element's `AddElement` delta is present in the
callback's final context, yet `execute_script` returns only the error —
the deltas recorded before the failure point are not delivered. -/
theorem c4_partial_delivery_counterexample :
    execute_script [] failing_app = Except.error "boom" ∧
    ((failing_app (St.with_delta_gen (seed_widgets [] DeltaGenState.new))).1).delta_gen.deltas
      = [Delta.addElement 1 (ElementType.text "recorded before failure") none] :=
  ⟨rfl, rfl⟩

/-- Unfolding equation for `execute_script`. -/
theorem execute_script_eq (ws : List (String × String)) (app : AppFn) :
    execute_script ws app
      = match app (St.with_delta_gen (seed_widgets ws DeltaGenState.new)) with
        | (_, Except.error e) => Except.error e
        | (st, Except.ok _) => Except.ok st.delta_gen.take_deltas.1 := rfl

/-- C4 (amended): when the script callback reports an application-level
failure the orchestrator returns only the error and discards the deltas
recorded before the failure point; deltas are delivered only when the
callback succeeds. -/
theorem c4_error_discards_deltas_amended
    (ws : List (String × String)) (app : AppFn) :
    (∀ e : String,
        (app (St.with_delta_gen (seed_widgets ws DeltaGenState.new))).2
          = Except.error e →
        execute_script ws app = Except.error e) ∧
    (∀ u : Unit,
        (app (St.with_delta_gen (seed_widgets ws DeltaGenState.new))).2
          = Except.ok u →
        execute_script ws app
          = Except.ok
              ((app (St.with_delta_gen (seed_widgets ws DeltaGenState.new))).1).delta_gen.deltas) := by
  constructor
  · intro e he
    rcases happ : app (St.with_delta_gen (seed_widgets ws DeltaGenState.new)) with ⟨st', r⟩
    have hr : r = Except.error e := by rw [happ] at he; exact he
    rw [execute_script_eq, happ, hr]
  · intro u hu
    rcases happ : app (St.with_delta_gen (seed_widgets ws DeltaGenState.new)) with ⟨st', r⟩
    have hr : r = Except.ok u := by rw [happ] at hu; exact hu
    rw [execute_script_eq, happ, hr]
    rfl

/-- Witness for C4 (amended): applied to the concrete failing callback. -/
theorem c4_error_discards_deltas_amended_witness :
    execute_script [] failing_app = Except.error "boom" :=
  (c4_error_discards_deltas_amended [] failing_app).1 "boom" rfl

/-- C5: Fail-soft typed reads.  An accessor returns absent on every
mismatching variant (`as_bool` is present only on `Bool`), and a builder
whose stored value is type-incompatible returns the script-supplied default
instead of an error. -/
theorem c5_fail_soft_typed_reads :
    (∀ s : String, (WidgetValue.string s).as_bool = none) ∧
    (∀ w : WidgetValue, w.as_bool ≠ none → ∃ b, w = WidgetValue.bool b) ∧
    (∀ (st : St) (label : String) (d : Bool) (k : String) (w : WidgetValue),
        st.delta_gen.get_widget k = some w → w.as_bool = none →
        (st.checkbox label d (some k)).1 = d) := by
  refine ⟨fun s => rfl, ?_, ?_⟩
  · intro w hw
    cases w with
    | bool b => exact ⟨b, rfl⟩
    | string s => exact absurd rfl hw
    | number n => exact absurd rfl hw
    | stringArray xs => exact absurd rfl hw
    | numberArray xs => exact absurd rfl hw
    | json v => exact absurd rfl hw
  · intro st label d k w h hb
    rw [checkbox_returns_keyed, h]
    show (WidgetValue.as_bool w).getD d = d
    rw [hb]
    rfl

/-- Witness for C5: a `String` stored under the checkbox's key makes the
checkbox return its script default `true`. -/
theorem c5_fail_soft_typed_reads_witness :
    ((St.with_delta_gen (DeltaGenState.new.set_widget "k"
        (WidgetValue.string "oops"))).checkbox "C" true (some "k")).1 = true :=
  c5_fail_soft_typed_reads.2.2
    (St.with_delta_gen (DeltaGenState.new.set_widget "k" (WidgetValue.string "oops")))
    "C" true "k" (WidgetValue.string "oops") rfl rfl

/-- C6: Numeric-first coercion of incoming raw widget values.  After the
orchestrator stores a raw value, the next run's seeded store holds
`Number` exactly when the Rust `f64` parse succeeds and `String` exactly
when it fails; in particular the text "true" does not parse numerically
and is stored as a string, never as a boolean. -/
theorem c6_numeric_first_coercion :
    (∀ (ws : List (String × String)) (k v : String) (num : F64),
        rust_f64_from_str v = some num →
        (seed_widgets (hashmap_insert k v ws) DeltaGenState.new).get_widget k
          = some (WidgetValue.number num)) ∧
    (∀ (ws : List (String × String)) (k v : String),
        rust_f64_from_str v = none →
        (seed_widgets (hashmap_insert k v ws) DeltaGenState.new).get_widget k
          = some (WidgetValue.string v)) ∧
    rust_f64_from_str "true" = none := by
  refine ⟨?_, ?_, by rfl⟩
  · intro ws k v num h
    rw [get_widget_seed_insert]
    unfold coerce_raw
    rw [h]
  · intro ws k v h
    rw [get_widget_seed_insert]
    unfold coerce_raw
    rw [h]

/-- Witness for C6: the raw text "75" is stored as `Number 75`; the raw
text "true" is stored as `String "true"`. -/
theorem c6_numeric_first_coercion_witness :
    (seed_widgets (hashmap_insert "k" "75" []) DeltaGenState.new).get_widget "k"
      = some (WidgetValue.number (F64.finite 75)) ∧
    (seed_widgets (hashmap_insert "k" "true" []) DeltaGenState.new).get_widget "k"
      = some (WidgetValue.string "true") :=
  ⟨c6_numeric_first_coercion.1 [] "k" "75" (F64.finite 75) rfl,
   c6_numeric_first_coercion.2.1 [] "k" "true" rfl⟩

/-- C8 counterexample: the claim says `heading(text, level=0)` and
`heading(text, level=7)` fail construction.  The `St::heading` builder the
script calls has no failure channel: at level 0 and at level 7 it succeeds,
returning a fresh id and recording the heading element. -/
theorem c8_heading_rejection_counterexample :
    (St.new.heading "T" 0).1 = 1 ∧
    (St.new.heading "T" 0).2.delta_gen.deltas
      = [Delta.addElement 1 (ElementType.heading "T" 0) none] ∧
    (St.new.heading "T" 7).2.delta_gen.deltas
      = [Delta.addElement 1 (ElementType.heading "T" 7) none] :=
  ⟨rfl, rfl, rfl⟩

/-- C8 (amended): the core `HeadingElement::new` constructor rejects level 0
and level 7 (any level outside 1..=6) and succeeds for every level in 1..=6;
the `St::heading` builder method, however, performs no validation and
records a heading element of any level, appending its `AddElement` delta. -/
theorem c8_heading_rejection_amended :
    (∀ (id : Nat) (content : String),
        (HeadingElement.new id content 0).isOk = false ∧
        (HeadingElement.new id content 7).isOk = false) ∧
    (∀ (id : Nat) (content : String) (level : Nat),
        1 ≤ level → level ≤ 6 → (HeadingElement.new id content level).isOk = true) ∧
    (∀ (st : St) (text : String) (level : Nat),
        (st.heading text level).2.delta_gen.deltas
          = st.delta_gen.deltas
            ++ [Delta.addElement st.delta_gen.next_id
                  (ElementType.heading text level) st.current_container]) := by
  refine ⟨fun id content => ⟨rfl, rfl⟩, ?_, fun st text level => rfl⟩
  intro id content level h1 h6
  interval_cases level <;> rfl

/-- Witness for C8 (amended): level 3 is accepted by the core constructor. -/
theorem c8_heading_rejection_amended_witness :
    (HeadingElement.new 1 "T" 3).isOk = true :=
  c8_heading_rejection_amended.2.1 1 "T" 3 (by decide) (by decide)

/-- C9 counterexample: the claim says `selectbox(label, options=[])` fails
construction.  The `St::selectbox` builder succeeds on an empty option
list: it records the element with an empty-string default and returns
that default. -/
theorem c9_selection_rejection_counterexample :
    (St.new.selectbox "L" [] 0 none).1 = "" ∧
    (St.new.selectbox "L" [] 0 none).2.delta_gen.deltas
      = [Delta.addElement 1 (ElementType.selectbox "L" [] (some "") none) none] :=
  ⟨rfl, rfl⟩

/-- C9 (amended): the core constructors `RadioElement::new` and
`MultiselectElement::new` reject an empty option list, and an index outside
`0..options.len()` is rejected on mutation (`set_selected_index`,
`add_selection`) rather than clamped; the `St::selectbox` builder, however,
accepts an empty option list, recording the element with an empty-string
default instead of failing. -/
theorem c9_selection_rejection_amended :
    (∀ (id : Nat) (label : String), (RadioElement.new id label []).isOk = false) ∧
    (∀ (id : Nat) (label : String) (options : List String), options ≠ [] →
        (RadioElement.new id label options).isOk = true) ∧
    (∀ (e : RadioElement) (index : Nat), e.options.length ≤ index →
        (e.set_selected_index index).isOk = false) ∧
    (∀ (e : RadioElement) (index : Nat), index < e.options.length →
        (e.set_selected_index index).isOk = true) ∧
    (∀ (id : Nat) (label : String), (MultiselectElement.new id label []).isOk = false) ∧
    (∀ (e : MultiselectElement) (index : Nat), e.options.length ≤ index →
        (e.add_selection index).isOk = false) ∧
    (∀ (st : St) (label : String) (index : Nat) (key : Option String),
        (st.selectbox label [] index key).2.delta_gen.deltas
          = st.delta_gen.deltas
            ++ [Delta.addElement st.delta_gen.next_id
                  (ElementType.selectbox label [] (some "") key)
                  st.current_container]) := by
  refine ⟨fun id label => rfl, ?_, ?_, ?_, fun id label => rfl, ?_, ?_⟩
  · intro id label options h
    cases options with
    | nil => exact absurd rfl h
    | cons a l => rfl
  · intro e index h
    simp [RadioElement.set_selected_index, h, Except.isOk, Except.toBool]
  · intro e index h
    have hn : ¬ index ≥ e.options.length := not_le.mpr h
    simp [RadioElement.set_selected_index, hn, Except.isOk, Except.toBool]
  · intro e index h
    simp [MultiselectElement.add_selection, h, Except.isOk, Except.toBool]
  · intro st label index key
    show (st.delta_gen.add_element
        (ElementType.selectbox label [] (some ((([] : List String).get? index).getD "")) key)
        st.current_container).2.deltas = _
    have hnil : (([] : List String).get? index).getD "" = "" := by
      cases index <;> rfl
    rw [hnil]
    rfl

/-- Witness for C9 (amended): a one-option radio is accepted, index 0 is a
valid mutation, and index 1 is rejected. -/
theorem c9_selection_rejection_amended_witness :
    (RadioElement.new 1 "R" ["A"]).isOk = true :=
  c9_selection_rejection_amended.2.1 1 "R" ["A"] (by decide)
